import Mathlib

/-!
Verification development for the `streamlit-ollama` repository.

The Conversation Store is `class ChatDB` in `src/db.py`: a thin wrapper over a
SQLite database (tables `chats` and `messages`, created in `ChatDB.__init__`)
accessed through short transactions.  The Streaming Response Aggregator is the
chat-input block of `app.py` (lines 317-339): it appends the user prompt to the
in-memory session history, streams the model's reply through the generator
`response_streamer` and `st.write_stream`, and appends the assembled reply to
the session history.

The SQLite state is embedded as `DBState`: the two tables as lists of rows,
the `AUTOINCREMENT` counters as `nextChatId`/`nextMsgId`, and
`DEFAULT CURRENT_TIMESTAMP` as a logical clock.  `self.connection` (which
`__init__` sets to `None` when the substrate is unreachable) is embedded as
`Option DBState`.  Substrate or application exceptions that can occur inside a
call are embedded as explicit fault oracles (`SaveFault`, or a Boolean `err`
argument), since the Python wraps each call in `try/except` blocks whose
behaviour is part of the code under verification.
-/

/-- Row of the `chats` table: `id INTEGER PRIMARY KEY AUTOINCREMENT`,
`name TEXT UNIQUE`, `model TEXT NOT NULL`, `timestamp DATETIME DEFAULT
CURRENT_TIMESTAMP` (the timestamp is a logical clock here). -/
structure ChatRow where
  id : Nat
  name : String
  model : String
  timestamp : Nat
deriving Repr, DecidableEq

/-- Row of the `messages` table: `id INTEGER PRIMARY KEY AUTOINCREMENT`,
`chat_id INTEGER NOT NULL` (foreign key to `chats(id)` with `ON DELETE
CASCADE`), `model TEXT NOT NULL`, `role TEXT NOT NULL`, `content TEXT NOT
NULL`, `timestamp DATETIME DEFAULT CURRENT_TIMESTAMP`. -/
structure MessageRow where
  id : Nat
  chat_id : Nat
  model : String
  role : String
  content : String
  timestamp : Nat
deriving Repr, DecidableEq

/-- State of the SQLite database behind a `ChatDB`.  `nextChatId` and
`nextMsgId` are the `AUTOINCREMENT` counters of the two tables, `clock` is the
logical time used for `DEFAULT CURRENT_TIMESTAMP`. -/
structure DBState where
  chats : List ChatRow
  messages : List MessageRow
  nextChatId : Nat
  nextMsgId : Nat
  clock : Nat
deriving Repr, DecidableEq

/-- The freshly initialized database: both tables empty, `AUTOINCREMENT`
counters at 1 (SQLite's first generated rowid). -/
def DBState.empty : DBState := ⟨[], [], 1, 1, 0⟩

/-- The `self.connection` attribute of `ChatDB`: `__init__` sets it to the
live connection, or to `None` when connecting to the substrate fails. -/
abbrev ChatDB := Option DBState

/-- Errors a `ChatDB` method can raise to its caller:
`chatExists` is `ChatExistsError` (raised by `save_chat` on a duplicate name),
`runtimeError` is the `RuntimeError("DB connection not available")` raised by
`save_chat` when `self.connection is None`, and `unexpected` is the re-raised
exception from `save_chat`'s catch-all `except Exception` clause. -/
inductive StoreError where
  | chatExists
  | runtimeError
  | unexpected
deriving Repr, DecidableEq

/-- Whether a chat named `name` already exists — this is what the `UNIQUE`
constraint on `chats.name` checks when `save_chat` inserts the chat row. -/
def nameTaken (db : DBState) (name : String) : Bool :=
  db.chats.any (fun c => c.name == name)

/-- Whether `chat_id` references a live chat — this is what the
`FOREIGN KEY (chat_id) REFERENCES chats(id)` constraint checks (the `PRAGMA
foreign_keys = ON` issued in `__init__` makes it effective). -/
def chatLive (db : DBState) (chat_id : Nat) : Bool :=
  db.chats.any (fun c => c.id == chat_id)

/-- An element of the `messages: list[dict]` argument of `save_chat`.  The
Python code reads only `msg["role"]` and `msg["content"]`; any other key the
dict may carry — in particular a per-message `model` — is never read, so it is
kept here as an ignored optional field. -/
structure InMessage where
  role : String
  content : String
  model : Option String := none
deriving Repr, DecidableEq

/-- Dict `{role, content}` as returned by `get_chat_messages` (the Python
builds `{"role": row[0], "content": row[1]}` per selected row). -/
structure RCMessage where
  role : String
  content : String
deriving Repr, DecidableEq

/-- Tuple `(id, name, model, timestamp)` as returned by `list_chats`. -/
structure ChatListing where
  id : Nat
  name : String
  model : String
  timestamp : Nat
deriving Repr, DecidableEq

/-- Fault oracle for one `save_chat` call, reflecting where the Python method
can raise a non-`IntegrityError` exception:
`duringChats` — while inserting/committing the chat row (first transaction
rolled back, database unchanged, exception re-raised);
`duringMessages` — after `db_session.commit()` has committed the chat row,
while inserting the message rows (for example a message dict without a
`"content"` key, or an I/O failure): only the second transaction is rolled
back, the committed chat row stays, and the exception is re-raised. -/
inductive SaveFault where
  | none
  | duringChats
  | duringMessages
deriving Repr, DecidableEq

/-- The message rows inserted by `save_chat`'s loop `for msg in messages`:
each row gets the new chat's id, the chat-level `model` argument (not any
per-message model), the dict's `role` and `content`, and consecutive
`AUTOINCREMENT` ids starting at `startId`. -/
def insertMessages (cid : Nat) (model : String) :
    List InMessage → Nat → Nat → List MessageRow
  | [], _, _ => []
  | m :: rest, startId, t =>
      ⟨startId, cid, model, m.role, m.content, t⟩ ::
        insertMessages cid model rest (startId + 1) (t + 1)

/-- Method `ChatDB.save_chat` (`src/db.py` lines 60-98).  If the connection is
`None` it raises `RuntimeError`.  Otherwise it inserts the chat row and
commits; a `UNIQUE`-violation (`IntegrityError`) rolls back and raises
`ChatExistsError`, leaving the database unchanged.  It then selects the new
chat id by name and inserts all message rows in a second transaction,
committing at the end.  Any other exception rolls back the transaction it
occurred in and is re-raised; a fault in the message phase leaves the already
committed chat row in place. -/
def ChatDB.save_chat (s : ChatDB) (name model : String) (msgs : List InMessage)
    (fault : SaveFault) : ChatDB × Except StoreError Nat :=
  match s with
  | Option.none => (Option.none, .error .runtimeError)
  | some db =>
    if nameTaken db name then
      (some db, .error .chatExists)
    else
      match fault with
      | .duringChats => (some db, .error .unexpected)
      | .duringMessages =>
          (some { db with
                    chats := db.chats ++ [⟨db.nextChatId, name, model, db.clock⟩],
                    nextChatId := db.nextChatId + 1,
                    clock := db.clock + 1 },
           .error .unexpected)
      | .none =>
          let cid := db.nextChatId
          let rows := insertMessages cid model msgs db.nextMsgId (db.clock + 1)
          (some { db with
                    chats := db.chats ++ [⟨cid, name, model, db.clock⟩],
                    messages := db.messages ++ rows,
                    nextChatId := cid + 1,
                    nextMsgId := db.nextMsgId + msgs.length,
                    clock := db.clock + 1 + msgs.length },
           .ok cid)

/-- Method `ChatDB.save_chat_message` (`src/db.py` lines 100-118).  With no
connection it logs and returns.  Otherwise the whole body is wrapped in
`try/except Exception`: a substrate fault (`err`) or the foreign-key violation
raised when `chat_id` references no live chat is caught and logged, and the
method returns normally with the database unchanged.  On success exactly one
message row is inserted and committed.  The method never raises. -/
def ChatDB.save_chat_message (s : ChatDB) (chat_id : Nat)
    (model role content : String) (err : Bool) : ChatDB × Except StoreError Unit :=
  match s with
  | Option.none => (Option.none, .ok ())
  | some db =>
    if err then
      (some db, .ok ())
    else if chatLive db chat_id then
      (some { db with
                messages := db.messages ++
                  [⟨db.nextMsgId, chat_id, model, role, content, db.clock⟩],
                nextMsgId := db.nextMsgId + 1,
                clock := db.clock + 1 },
       .ok ())
    else
      (some db, .ok ())

/-- Method `ChatDB.get_chat_messages` (`src/db.py` lines 120-140):
`SELECT role, content FROM messages WHERE chat_id = :chat_id ORDER BY id ASC`,
each row returned as a `{role, content}` dict.  With no connection, or when
the substrate call fails (`err`), it returns `[]`.  The method never raises. -/
def ChatDB.get_chat_messages (s : ChatDB) (chat_id : Nat) (err : Bool) :
    List RCMessage :=
  match s with
  | Option.none => []
  | some db =>
    if err then []
    else
      ((db.messages.filter (fun r => r.chat_id == chat_id)).mergeSort
          (fun a b => a.id ≤ b.id)).map (fun r => ⟨r.role, r.content⟩)

/-- Method `ChatDB.update_chat_model` (`src/db.py` lines 142-160):
`UPDATE chats SET model = :model WHERE id = :chat_id`, committed.  With no
connection or on a substrate fault it logs and returns with the database
unchanged.  The method never raises. -/
def ChatDB.update_chat_model (s : ChatDB) (chat_id : Nat) (model : String)
    (err : Bool) : ChatDB × Except StoreError Unit :=
  match s with
  | Option.none => (Option.none, .ok ())
  | some db =>
    if err then (some db, .ok ())
    else
      (some { db with
                chats := db.chats.map (fun c =>
                  if c.id == chat_id then { c with model := model } else c) },
       .ok ())

/-- Method `ChatDB.delete_chat` (`src/db.py` lines 162-180):
`DELETE FROM chats WHERE id = :chat_id`, committed; the `ON DELETE CASCADE`
clause of `messages.chat_id` (effective because `__init__` enables
`PRAGMA foreign_keys`) deletes all owned message rows in the same transaction.
With no connection or on a substrate fault it logs and returns with the
database unchanged.  The method never raises. -/
def ChatDB.delete_chat (s : ChatDB) (chat_id : Nat) (err : Bool) :
    ChatDB × Except StoreError Unit :=
  match s with
  | Option.none => (Option.none, .ok ())
  | some db =>
    if err then (some db, .ok ())
    else
      (some { db with
                chats := db.chats.filter (fun c => !(c.id == chat_id)),
                messages := db.messages.filter (fun m => !(m.chat_id == chat_id)) },
       .ok ())

/-- Method `ChatDB.list_chats` (`src/db.py` lines 182-199):
`SELECT id, name, model, timestamp FROM chats ORDER BY timestamp DESC`.  With
no connection or on a substrate fault it returns `[]`.  Never raises. -/
def ChatDB.list_chats (s : ChatDB) (err : Bool) : List ChatListing :=
  match s with
  | Option.none => []
  | some db =>
    if err then []
    else
      (db.chats.mergeSort (fun a b => b.timestamp ≤ a.timestamp)).map
        (fun c => ⟨c.id, c.name, c.model, c.timestamp⟩)

/-- Method `ChatDB.last_used_model` (`src/db.py` lines 201-222):
`SELECT model FROM chats ORDER BY timestamp DESC LIMIT 1`, or `None` when
there is no connection, no row, or the substrate call fails. -/
def ChatDB.last_used_model (s : ChatDB) (err : Bool) : Option String :=
  match s with
  | Option.none => Option.none
  | some db =>
    if err then Option.none
    else
      ((db.chats.mergeSort (fun a b => b.timestamp ≤ a.timestamp)).map
        (fun c => c.model)).head?

/-- Well-formedness of a database state reachable through the store: row ids
are below the `AUTOINCREMENT` counters, and every message references a live
chat (the foreign-key invariant the substrate enforces). -/
structure WF (db : DBState) : Prop where
  chats_lt : ∀ c ∈ db.chats, c.id < db.nextChatId
  msgs_lt : ∀ m ∈ db.messages, m.id < db.nextMsgId
  fk : ∀ m ∈ db.messages, ∃ c ∈ db.chats, m.chat_id = c.id

/-! The Streaming Response Aggregator: the chat-input block of `app.py`
(lines 317-339). -/

/-- One chunk of the streamed Ollama `ChatResponse`; `content` stands for
`chunk.message.content`. -/
structure Chunk where
  content : String
deriving Repr, DecidableEq

/-- The streamed response produced by `ollama.chat(..., stream=True)` for one
turn: the chunks the iterator yields, and whether it then raises instead of
terminating normally.  A failure before the first fragment is `chunks = []`
with `raises = true`; a failure after `k` fragments is a stream whose `chunks`
has length `k`. -/
structure ResponseStream where
  chunks : List Chunk
  raises : Bool

/-- Generator `response_streamer` (`app.py` lines 332-335): yields
`chunk.message.content` for each chunk of the response stream. -/
def response_streamer (rs : ResponseStream) : List String :=
  rs.chunks.map (fun c => c.content)

/-- Call `st.write_stream(response_streamer)` (`app.py` line 338): consumes
the generator, returning the concatenation of all yielded strings, or
propagating the stream's exception (`none`). -/
def write_stream (rs : ResponseStream) : Option String :=
  if rs.raises then none else some (String.join (response_streamer rs))

/-- The session-state fields relevant to a turn: the in-memory working history
`st.session_state["messages"]` and the active persisted chat id
`st.session_state["chat_id"]` (which is `None` until an explicit save). -/
structure SessionState where
  messages : List RCMessage
  chat_id : Option Nat
deriving Repr, DecidableEq

/-- How one turn terminates: a fully assembled assistant reply, or an
exception propagated out of the streaming block. -/
inductive TurnOutcome where
  | done (full_text : String)
  | failed
deriving Repr, DecidableEq

/-- The chat-input block of `app.py` (lines 317-339) for one prompt: append
the user message to the working history, stream the reply, and on success
append exactly one assistant message holding the assembled text.  If the
stream raises, the exception propagates and the assistant append never runs.
The block never references `chat_db`, so the store state passes through
untouched. -/
def chat_input_turn (sess : SessionState) (chat_db : ChatDB) (prompt : String)
    (rs : ResponseStream) : SessionState × ChatDB × TurnOutcome :=
  let sess1 : SessionState :=
    { sess with messages := sess.messages ++ [⟨"user", prompt⟩] }
  match write_stream rs with
  | Option.none => (sess1, chat_db, .failed)
  | some full_response =>
      ({ sess1 with messages := sess1.messages ++ [⟨"assistant", full_response⟩] },
       chat_db, .done full_response)

/-! Helper lemmas about the rows `save_chat` inserts. -/

/-- Every row built by `insertMessages` has an id at least `startId`. -/
theorem insertMessages_id_lb (cid : Nat) (model : String) :
    ∀ (msgs : List InMessage) (startId t : Nat),
      ∀ r ∈ insertMessages cid model msgs startId t, startId ≤ r.id := by
  intro msgs
  induction msgs with
  | nil => intro startId t r hr; simp [insertMessages] at hr
  | cons m rest ih =>
    intro startId t r hr
    simp only [insertMessages, List.mem_cons] at hr
    rcases hr with rfl | hr
    · exact Nat.le_refl _
    · exact Nat.le_of_succ_le (ih (startId + 1) (t + 1) r hr)

/-- The rows built by `insertMessages` have strictly increasing ids. -/
theorem insertMessages_pairwise_lt (cid : Nat) (model : String) :
    ∀ (msgs : List InMessage) (startId t : Nat),
      (insertMessages cid model msgs startId t).Pairwise (fun a b => a.id < b.id) := by
  intro msgs
  induction msgs with
  | nil => intro startId t; simp [insertMessages]
  | cons m rest ih =>
    intro startId t
    simp only [insertMessages]
    refine List.Pairwise.cons ?_ (ih (startId + 1) (t + 1))
    intro r hr
    have := insertMessages_id_lb cid model rest (startId + 1) (t + 1) r hr
    simpa using Nat.lt_of_succ_le this

/-- Every row built by `insertMessages` carries the new chat's id. -/
theorem insertMessages_chat_id (cid : Nat) (model : String) :
    ∀ (msgs : List InMessage) (startId t : Nat),
      ∀ r ∈ insertMessages cid model msgs startId t, r.chat_id = cid := by
  intro msgs
  induction msgs with
  | nil => intro startId t r hr; simp [insertMessages] at hr
  | cons m rest ih =>
    intro startId t r hr
    simp only [insertMessages, List.mem_cons] at hr
    rcases hr with rfl | hr
    · rfl
    · exact ih (startId + 1) (t + 1) r hr

/-- Every row built by `insertMessages` carries the chat-level model. -/
theorem insertMessages_model (cid : Nat) (model : String) :
    ∀ (msgs : List InMessage) (startId t : Nat),
      ∀ r ∈ insertMessages cid model msgs startId t, r.model = model := by
  intro msgs
  induction msgs with
  | nil => intro startId t r hr; simp [insertMessages] at hr
  | cons m rest ih =>
    intro startId t r hr
    simp only [insertMessages, List.mem_cons] at hr
    rcases hr with rfl | hr
    · rfl
    · exact ih (startId + 1) (t + 1) r hr

/-- Projecting the rows built by `insertMessages` back to `{role, content}`
dicts recovers the input messages, in order. -/
theorem insertMessages_roles_contents (cid : Nat) (model : String) :
    ∀ (msgs : List InMessage) (startId t : Nat),
      (insertMessages cid model msgs startId t).map
          (fun r => RCMessage.mk r.role r.content)
        = msgs.map (fun m => RCMessage.mk m.role m.content) := by
  intro msgs
  induction msgs with
  | nil => intro startId t; simp [insertMessages]
  | cons m rest ih =>
    intro startId t
    simp only [insertMessages, List.map_cons]
    exact congrArg _ (ih (startId + 1) (t + 1))

/-- In a well-formed database no stored message row references the chat id
that `save_chat` is about to allocate. -/
theorem filter_messages_fresh (db : DBState) (hwf : WF db) :
    db.messages.filter (fun r => r.chat_id == db.nextChatId) = [] := by
  rw [List.filter_eq_nil_iff]
  intro r hr
  obtain ⟨c, hc, heq⟩ := hwf.fk r hr
  have hlt := hwf.chats_lt c hc
  simp only [beq_iff_eq, heq]
  omega

/-! Claim theorems for the Streaming Response Aggregator. -/

/-- C1 (amended): when the stream terminates normally, the turn ends with
`done(full_text)` and exactly one assistant message holding the assembled text
is appended to the in-memory working history; the code never calls the store
after a turn, so the store state — and with it every chat's stored messages —
is returned unchanged, whether or not a persisted chat id is active. -/
theorem turn_done_appends_to_memory_only (sess : SessionState) (chat_db : ChatDB)
    (prompt : String) (chunks : List Chunk) :
    chat_input_turn sess chat_db prompt ⟨chunks, false⟩ =
      ({ sess with messages := sess.messages ++
          [⟨"user", prompt⟩,
           ⟨"assistant", String.join (chunks.map (fun c => c.content))⟩] },
       chat_db, .done (String.join (chunks.map (fun c => c.content)))) := by
  simp [chat_input_turn, write_stream, response_streamer]

/-- Database holding one saved chat (id 1) with no stored messages. -/
def oneChatDB : DBState := ⟨[⟨1, "n", "m", 0⟩], [], 2, 1, 1⟩

/-- Session whose persisted chat id is active (chat 1). -/
def activeSession : SessionState := ⟨[], some 1⟩

/-- C1 counterexample: with persisted chat id 1 active, a turn that terminates
with `done("Hello world")` leaves the store exactly as it was — chat 1's
stored messages remain empty, so no assistant message was appended to the
store, contrary to the claim. -/
theorem turn_done_counterexample :
    activeSession.chat_id = some 1 ∧
    (chat_input_turn activeSession (some oneChatDB) "hi"
        ⟨[⟨"Hello world"⟩], false⟩).2.2 = .done "Hello world" ∧
    (chat_input_turn activeSession (some oneChatDB) "hi"
        ⟨[⟨"Hello world"⟩], false⟩).2.1 = some oneChatDB ∧
    ChatDB.get_chat_messages
        (chat_input_turn activeSession (some oneChatDB) "hi"
          ⟨[⟨"Hello world"⟩], false⟩).2.1 1 false = [] := by
  refine ⟨rfl, rfl, rfl, ?_⟩
  simp [chat_input_turn, write_stream, response_streamer, ChatDB.get_chat_messages,
    oneChatDB, activeSession]

/-- C6: if the inference stream raises at any point (covering a failure before
the first fragment, `chunks = []`), the turn ends with `failed`, the
accumulated fragments are discarded, the store is untouched, and the working
history's last entry is the user's prompt. -/
theorem turn_failure_discards_partial (sess : SessionState) (chat_db : ChatDB)
    (prompt : String) (chunks : List Chunk) :
    chat_input_turn sess chat_db prompt ⟨chunks, true⟩ =
      ({ sess with messages := sess.messages ++ [⟨"user", prompt⟩] },
       chat_db, .failed) ∧
    (chat_input_turn sess chat_db prompt ⟨chunks, true⟩).1.messages.getLast?
      = some ⟨"user", prompt⟩ := by
  constructor
  · simp [chat_input_turn, write_stream]
  · simp [chat_input_turn, write_stream, List.getLast?_concat]

/-! Claim theorems for the Conversation Store. -/

/-- C2 (amended): if `name` is already taken, `save_chat` fails with
`ChatExistsError` and the database is left completely unchanged, whatever
fault the call would otherwise run into.  The insertion of a fresh chat is,
however, not one atomic transaction: the chat row is committed before the
messages, so a failure during the message phase leaves a chat row without its
messages (see the counterexample). -/
theorem save_chat_duplicate_leaves_db_unchanged (db : DBState)
    (name model : String) (msgs : List InMessage) (fault : SaveFault)
    (htaken : nameTaken db name = true) :
    ChatDB.save_chat (some db) name model msgs fault
      = (some db, .error .chatExists) := by
  simp [ChatDB.save_chat, htaken]

/-- Witness for the amended C2 theorem at a concrete duplicate name. -/
theorem save_chat_duplicate_witness :
    nameTaken oneChatDB "n" = true ∧
    ChatDB.save_chat (some oneChatDB) "n" "m2" [] SaveFault.none
      = (some oneChatDB, .error .chatExists) :=
  ⟨rfl, save_chat_duplicate_leaves_db_unchanged oneChatDB "n" "m2" []
    SaveFault.none rfl⟩

/-- C2 counterexample: saving a fresh chat is not atomic.  With an exception
during the message phase (for example a message dict without a `"content"`
key), the call reports an error yet the already committed chat row stays
behind with none of its messages: `list_chats` shows chat 1 while
`get_chat_messages 1` is empty — precisely the intermediate state the claim
says is never observable. -/
theorem save_chat_not_atomic_counterexample :
    ChatDB.save_chat (some DBState.empty) "n" "m" [⟨"user", "hi", none⟩]
        SaveFault.duringMessages = (some oneChatDB, .error .unexpected) ∧
    (ChatDB.list_chats (some oneChatDB) false).map (fun c => c.id) = [1] ∧
    ChatDB.get_chat_messages (some oneChatDB) 1 false = [] := by
  refine ⟨rfl, ?_, ?_⟩
  · simp [ChatDB.list_chats, oneChatDB]
  · simp [ChatDB.get_chat_messages, oneChatDB]

/-- C3 (amended): with the substrate unreachable at initialization
(`self.connection is None`), every read returns an empty result and every
write except `save_chat` is a logged no-op; `save_chat` alone propagates a
`RuntimeError` to its caller instead of degrading. -/
theorem degraded_mode_behavior (name model role content : String)
    (chat_id : Nat) (msgs : List InMessage) (fault : SaveFault) (err : Bool) :
    ChatDB.get_chat_messages Option.none chat_id err = [] ∧
    ChatDB.list_chats Option.none err = [] ∧
    ChatDB.last_used_model Option.none err = Option.none ∧
    ChatDB.save_chat_message Option.none chat_id model role content err
      = (Option.none, .ok ()) ∧
    ChatDB.update_chat_model Option.none chat_id model err
      = (Option.none, .ok ()) ∧
    ChatDB.delete_chat Option.none chat_id err = (Option.none, .ok ()) ∧
    ChatDB.save_chat Option.none name model msgs fault
      = (Option.none, .error .runtimeError) :=
  ⟨rfl, rfl, rfl, rfl, rfl, rfl, rfl⟩

/-- C3 counterexample: in degraded mode `save_chat` is not a logged no-op — it
raises `RuntimeError` to the caller. -/
theorem degraded_save_chat_raises_counterexample :
    (ChatDB.save_chat Option.none "n" "m" [] SaveFault.none).2
      = .error .runtimeError := rfl

/-- C4 (amended): `save_chat` performs no name validation.  An empty name is
accepted like any other name, subject only to the uniqueness constraint: the
call succeeds, returns the new id, and inserts the chat row carrying the blank
name.  No `ValidationError` exists anywhere in the code. -/
theorem save_chat_accepts_blank_name (db : DBState) (model : String)
    (msgs : List InMessage) (hfresh : nameTaken db "" = false) :
    (ChatDB.save_chat (some db) "" model msgs SaveFault.none).2
      = .ok db.nextChatId ∧
    ∃ db2, (ChatDB.save_chat (some db) "" model msgs SaveFault.none).1 = some db2 ∧
      ChatRow.mk db.nextChatId "" model db.clock ∈ db2.chats := by
  have h : ChatDB.save_chat (some db) "" model msgs SaveFault.none
      = (some { db with
                  chats := db.chats ++ [⟨db.nextChatId, "", model, db.clock⟩],
                  messages := db.messages ++
                    insertMessages db.nextChatId model msgs db.nextMsgId
                      (db.clock + 1),
                  nextChatId := db.nextChatId + 1,
                  nextMsgId := db.nextMsgId + msgs.length,
                  clock := db.clock + 1 + msgs.length },
         .ok db.nextChatId) := by
    simp [ChatDB.save_chat, hfresh]
  rw [h]
  refine ⟨rfl, _, rfl, ?_⟩
  simp

/-- Witness for the amended C4 theorem on the empty database. -/
theorem save_chat_accepts_blank_name_witness :
    nameTaken DBState.empty "" = false ∧
    ((ChatDB.save_chat (some DBState.empty) "" "m" [] SaveFault.none).2
        = .ok DBState.empty.nextChatId ∧
      ∃ db2, (ChatDB.save_chat (some DBState.empty) "" "m" [] SaveFault.none).1
          = some db2 ∧
        ChatRow.mk DBState.empty.nextChatId "" "m" DBState.empty.clock ∈ db2.chats) :=
  ⟨rfl, save_chat_accepts_blank_name DBState.empty "m" [] rfl⟩

/-- C4 counterexample: on an empty database, `save_chat` with a blank name
does not fail — it succeeds with id 1 and inserts the blank-named row. -/
theorem blank_name_counterexample :
    ChatDB.save_chat (some DBState.empty) "" "m" [] SaveFault.none
      = (some ⟨[⟨1, "", "m", 0⟩], [], 2, 1, 1⟩, .ok 1) := rfl

/-- C5 (amended): on a fault-free call with a live connection,
`save_chat_message` inserts exactly one message row when `chat_id` references
a live chat; when it does not, the foreign-key violation is caught and logged
and the call returns normally with the database unchanged — no `NotFound`
error is raised. -/
theorem save_chat_message_live_or_silent (db : DBState) (chat_id : Nat)
    (model role content : String) :
    (chatLive db chat_id = true →
      ChatDB.save_chat_message (some db) chat_id model role content false
        = (some { db with
                    messages := db.messages ++
                      [⟨db.nextMsgId, chat_id, model, role, content, db.clock⟩],
                    nextMsgId := db.nextMsgId + 1,
                    clock := db.clock + 1 },
           .ok ())) ∧
    (chatLive db chat_id = false →
      ChatDB.save_chat_message (some db) chat_id model role content false
        = (some db, .ok ())) := by
  constructor <;> intro h <;> simp [ChatDB.save_chat_message, h]

/-- Witness for the amended C5 theorem: appending to the live chat 1. -/
theorem save_chat_message_live_witness :
    chatLive oneChatDB 1 = true ∧
    ChatDB.save_chat_message (some oneChatDB) 1 "m" "assistant" "hey" false
      = (some { oneChatDB with
                  messages := oneChatDB.messages ++
                    [⟨oneChatDB.nextMsgId, 1, "m", "assistant", "hey",
                      oneChatDB.clock⟩],
                  nextMsgId := oneChatDB.nextMsgId + 1,
                  clock := oneChatDB.clock + 1 },
         .ok ()) :=
  ⟨rfl, (save_chat_message_live_or_silent oneChatDB 1 "m" "assistant" "hey").1 rfl⟩

/-- C5 counterexample: with no live chat 1 in the empty database, the call does
not fail with `NotFound` — it returns normally, leaving the database
unchanged. -/
theorem save_chat_message_no_notfound_counterexample :
    ChatDB.save_chat_message (some DBState.empty) 1 "m" "user" "hi" false
      = (some DBState.empty, .ok ()) := rfl

/-- C9: with a live connection, every store operation except `save_chat`
absorbs substrate errors per call: `save_chat_message`, `update_chat_model`
and `delete_chat` never raise and leave the database unchanged on a faulted
call, and `get_chat_messages` and `list_chats` never raise and return an
empty result on a faulted call. -/
theorem store_ops_absorb_errors (db : DBState) (chat_id : Nat)
    (model role content : String) :
    ChatDB.save_chat_message (some db) chat_id model role content true
      = (some db, .ok ()) ∧
    ChatDB.update_chat_model (some db) chat_id model true = (some db, .ok ()) ∧
    ChatDB.delete_chat (some db) chat_id true = (some db, .ok ()) ∧
    ChatDB.get_chat_messages (some db) chat_id true = [] ∧
    ChatDB.list_chats (some db) true = [] ∧
    ∀ err : Bool,
      (ChatDB.save_chat_message (some db) chat_id model role content err).2
          = .ok () ∧
      (ChatDB.update_chat_model (some db) chat_id model err).2 = .ok () ∧
      (ChatDB.delete_chat (some db) chat_id err).2 = .ok () := by
  refine ⟨rfl, rfl, rfl, rfl, rfl, ?_⟩
  intro err
  cases err
  · refine ⟨?_, rfl, rfl⟩
    by_cases h : chatLive db chat_id <;> simp [ChatDB.save_chat_message, h]
  · exact ⟨rfl, rfl, rfl⟩

/-- The freshly initialized database is well formed. -/
theorem WF_empty : WF DBState.empty :=
  ⟨by simp [DBState.empty], by simp [DBState.empty], by simp [DBState.empty]⟩

/-- Database holding one saved chat (id 1) with one stored message. -/
def sampleDB : DBState :=
  ⟨[⟨1, "n", "m", 0⟩], [⟨1, 1, "m", "user", "hi", 1⟩], 2, 2, 2⟩

/-- C7: round-trip.  Saving a chat with a non-blank fresh name and an ordered
sequence of messages and then reading the new chat id back yields exactly the
saved `(role, content)` sequence, in insertion order. -/
theorem save_chat_get_messages_roundtrip (db : DBState) (hwf : WF db)
    (name model : String) (msgs : List InMessage)
    (_hblank : name ≠ "") (hfresh : nameTaken db name = false) :
    (ChatDB.save_chat (some db) name model msgs SaveFault.none).2
      = .ok db.nextChatId ∧
    ChatDB.get_chat_messages
        (ChatDB.save_chat (some db) name model msgs SaveFault.none).1
        db.nextChatId false
      = msgs.map (fun m => RCMessage.mk m.role m.content) := by
  have h : ChatDB.save_chat (some db) name model msgs SaveFault.none
      = (some { db with
                  chats := db.chats ++ [⟨db.nextChatId, name, model, db.clock⟩],
                  messages := db.messages ++
                    insertMessages db.nextChatId model msgs db.nextMsgId
                      (db.clock + 1),
                  nextChatId := db.nextChatId + 1,
                  nextMsgId := db.nextMsgId + msgs.length,
                  clock := db.clock + 1 + msgs.length },
         .ok db.nextChatId) := by
    simp [ChatDB.save_chat, hfresh]
  rw [h]
  refine ⟨rfl, ?_⟩
  have hrows : (insertMessages db.nextChatId model msgs db.nextMsgId
        (db.clock + 1)).filter (fun r => r.chat_id == db.nextChatId)
      = insertMessages db.nextChatId model msgs db.nextMsgId (db.clock + 1) := by
    rw [List.filter_eq_self]
    intro r hr
    simp [insertMessages_chat_id db.nextChatId model msgs db.nextMsgId
      (db.clock + 1) r hr]
  have hsorted : (insertMessages db.nextChatId model msgs db.nextMsgId
        (db.clock + 1)).Pairwise (fun a b : MessageRow => (a.id ≤ b.id : Bool)) :=
    (insertMessages_pairwise_lt db.nextChatId model msgs db.nextMsgId
      (db.clock + 1)).imp (fun hab => by simpa using Nat.le_of_lt hab)
  simp only [ChatDB.get_chat_messages, List.filter_append,
    filter_messages_fresh db hwf, List.nil_append, hrows, if_false]
  rw [List.mergeSort_of_sorted hsorted]
  exact insertMessages_roles_contents db.nextChatId model msgs db.nextMsgId
    (db.clock + 1)

/-- Witness for the C7 round-trip theorem at the spec's own example. -/
theorem save_chat_get_messages_roundtrip_witness :
    nameTaken DBState.empty "n" = false ∧
    ((ChatDB.save_chat (some DBState.empty) "n" "m"
        [⟨"user", "hi", none⟩, ⟨"assistant", "hey", none⟩] SaveFault.none).2
      = .ok DBState.empty.nextChatId ∧
    ChatDB.get_chat_messages
        (ChatDB.save_chat (some DBState.empty) "n" "m"
          [⟨"user", "hi", none⟩, ⟨"assistant", "hey", none⟩] SaveFault.none).1
        DBState.empty.nextChatId false
      = [⟨"user", "hi"⟩, ⟨"assistant", "hey"⟩]) :=
  ⟨rfl, by
    have h := save_chat_get_messages_roundtrip DBState.empty WF_empty "n" "m"
      [⟨"user", "hi", none⟩, ⟨"assistant", "hey", none⟩] (by decide) rfl
    simpa using h⟩

/-- C8: cascade deletion.  For a chat id present in the store, a fault-free
`delete_chat` removes the chat row and, through the substrate's
`ON DELETE CASCADE`, all messages owned by it, in the same transaction:
afterwards `get_chat_messages` returns the empty sequence and `list_chats`
omits the id. -/
theorem delete_chat_cascade (db : DBState) (chat_id : Nat)
    (_hmem : chat_id ∈ db.chats.map (fun c => c.id)) :
    (ChatDB.delete_chat (some db) chat_id false).2 = .ok () ∧
    ChatDB.get_chat_messages (ChatDB.delete_chat (some db) chat_id false).1
      chat_id false = [] ∧
    chat_id ∉ ((ChatDB.list_chats (ChatDB.delete_chat (some db) chat_id false).1
      false).map (fun l => l.id)) := by
  have h : ChatDB.delete_chat (some db) chat_id false
      = (some { db with
                  chats := db.chats.filter (fun c => !(c.id == chat_id)),
                  messages := db.messages.filter
                    (fun m => !(m.chat_id == chat_id)) },
         .ok ()) := by
    simp [ChatDB.delete_chat]
  rw [h]
  refine ⟨rfl, ?_, ?_⟩
  · have hnil : (db.messages.filter (fun m => !(m.chat_id == chat_id))).filter
        (fun r => r.chat_id == chat_id) = [] := by
      rw [List.filter_eq_nil_iff]
      intro r hr
      have hq := List.of_mem_filter hr
      simp only [Bool.not_eq_eq_eq_not, Bool.not_true, beq_eq_false_iff_ne] at hq
      simp [hq]
    simp [ChatDB.get_chat_messages, hnil]
  · intro hin
    simp only [ChatDB.list_chats, Bool.false_eq_true, if_false] at hin
    rw [List.mem_map] at hin
    obtain ⟨l, hl, hlid⟩ := hin
    rw [List.mem_map] at hl
    obtain ⟨c, hc, rfl⟩ := hl
    rw [List.mem_mergeSort] at hc
    have hne := List.of_mem_filter hc
    simp only [Bool.not_eq_eq_eq_not, Bool.not_true, beq_eq_false_iff_ne] at hne
    exact hne (by simpa using hlid)

/-- Witness for the C8 cascade theorem: deleting chat 1 of `sampleDB`. -/
theorem delete_chat_cascade_witness :
    1 ∈ sampleDB.chats.map (fun c => c.id) ∧
    ((ChatDB.delete_chat (some sampleDB) 1 false).2 = .ok () ∧
     ChatDB.get_chat_messages (ChatDB.delete_chat (some sampleDB) 1 false).1
       1 false = [] ∧
     1 ∉ ((ChatDB.list_chats (ChatDB.delete_chat (some sampleDB) 1 false).1
       false).map (fun l => l.id))) :=
  ⟨by simp [sampleDB], delete_chat_cascade sampleDB 1 (by simp [sampleDB])⟩

/-- C10: every message row inserted by a successful `save_chat` records the
chat-level `model` argument of the call; per-message model information carried
by the input dicts is never read. -/
theorem save_chat_rows_use_chat_model (db : DBState) (hwf : WF db)
    (name model : String) (msgs : List InMessage)
    (hfresh : nameTaken db name = false) :
    ∃ db2, ChatDB.save_chat (some db) name model msgs SaveFault.none
        = (some db2, .ok db.nextChatId) ∧
      ∀ r ∈ db2.messages, r.chat_id = db.nextChatId → r.model = model := by
  have h : ChatDB.save_chat (some db) name model msgs SaveFault.none
      = (some { db with
                  chats := db.chats ++ [⟨db.nextChatId, name, model, db.clock⟩],
                  messages := db.messages ++
                    insertMessages db.nextChatId model msgs db.nextMsgId
                      (db.clock + 1),
                  nextChatId := db.nextChatId + 1,
                  nextMsgId := db.nextMsgId + msgs.length,
                  clock := db.clock + 1 + msgs.length },
         .ok db.nextChatId) := by
    simp [ChatDB.save_chat, hfresh]
  refine ⟨_, h, ?_⟩
  intro r hr hcid
  have hr2 : r ∈ db.messages ++
      insertMessages db.nextChatId model msgs db.nextMsgId (db.clock + 1) := hr
  rcases List.mem_append.mp hr2 with hold | hnew
  · obtain ⟨c, hc, heq⟩ := hwf.fk r hold
    have hlt := hwf.chats_lt c hc
    omega
  · exact insertMessages_model db.nextChatId model msgs db.nextMsgId
      (db.clock + 1) r hnew

/-- Witness for the C10 theorem: the input message carries its own model
`"other"`, yet the stored row records the chat-level `"m"`. -/
theorem save_chat_rows_use_chat_model_witness :
    nameTaken DBState.empty "n" = false ∧
    ∃ db2, ChatDB.save_chat (some DBState.empty) "n" "m"
        [⟨"user", "hi", some "other"⟩] SaveFault.none
        = (some db2, .ok DBState.empty.nextChatId) ∧
      ∀ r ∈ db2.messages, r.chat_id = DBState.empty.nextChatId → r.model = "m" :=
  ⟨rfl, save_chat_rows_use_chat_model DBState.empty WF_empty "n" "m"
    [⟨"user", "hi", some "other"⟩] rfl⟩
